import Mathlib

/-!
Verification of the two Ansible AWS modules in this repository:
`ec2_asg_scheduled_action.py` and `iam_user_facts.py`.

The modules are shallowly embedded: each Python function becomes a Lean
function over an explicit model of the remote AWS collaborator.  The
collaborator (boto3 client) is modelled as a record holding the remote
resource state plus fault-injection fields saying which API call, if any,
raises a `ClientError`; each embedded module function returns its outcome,
the post-call remote state, and the trace of API calls it issued.
-/

set_option autoImplicit false

namespace AnsibleAws

/-- A botocore `ClientError`: a machine-readable code plus a message. -/
structure ClientError where
  code : String
  msg : String
deriving DecidableEq

/-- Python `str(e)` on a `ClientError` renders both code and message
(the exact rendering is opaque; only injectivity in code/msg matters). -/
def errStr (e : ClientError) : String :=
  "An error occurred (" ++ e.code ++ "): " ++ e.msg

/-- A scheduled update group action as returned by
`describe_scheduled_actions`: a flat record.  Equality derived here is
flat equality over every field, matching Python `dict` `!=` on the
describe snapshot. -/
structure Action where
  autoScalingGroupName : String
  scheduledActionName : String
  recurrence : String
  desiredCapacity : Int
  minSize : Option Int
  maxSize : Option Int
  startTime : Option String
  endTime : Option String
deriving DecidableEq

/-- The module parameters of `ec2_asg_scheduled_action` (the DesiredState):
required identity and schedule fields, optional sizing/time fields
(`default=None` in the argument spec). -/
structure ModuleParams where
  autoscaling_group_name : String
  scheduled_action_name : String
  recurrence : String
  desired_capacity : Int
  min_size : Option Int
  max_size : Option Int
  start_time : Option String
  end_time : Option String
deriving DecidableEq

/-- Values appearing in a boto3 request parameter dict. -/
inductive PValue where
  | str (s : String)
  | int (i : Int)
  | bool (b : Bool)
  | strList (l : List String)
deriving DecidableEq

/-- `get_common_params`: aws_retry flag plus the identity key
(group name + action name), in insertion order. -/
def get_common_params (p : ModuleParams) : List (String × PValue) :=
  [("aws_retry", PValue.bool true),
   ("AutoScalingGroupName", PValue.str p.autoscaling_group_name),
   ("ScheduledActionName", PValue.str p.scheduled_action_name)]

/-- The request dict built by `describe_scheduled_actions`:
`ScheduledActionName` is popped and re-added as the singleton list
`ScheduledActionNames`. -/
def describe_params (p : ModuleParams) : List (String × PValue) :=
  [("aws_retry", PValue.bool true),
   ("AutoScalingGroupName", PValue.str p.autoscaling_group_name),
   ("ScheduledActionNames", PValue.strList [p.scheduled_action_name])]

/-- The request dict built by `put_scheduled_update_group_action` before the
put call: common params, then `Recurrence` and `DesiredCapacity`
unconditionally, then each optional field only when the module parameter is
not `None` (source lines 159-175). -/
def put_params (p : ModuleParams) : List (String × PValue) :=
  get_common_params p
  ++ [("Recurrence", PValue.str p.recurrence),
      ("DesiredCapacity", PValue.int p.desired_capacity)]
  ++ (match p.min_size with
      | some v => [("MinSize", PValue.int v)]
      | none => [])
  ++ (match p.max_size with
      | some v => [("MaxSize", PValue.int v)]
      | none => [])
  ++ (match p.start_time with
      | some v => [("StartTime", PValue.str v)]
      | none => [])
  ++ (match p.end_time with
      | some v => [("EndTime", PValue.str v)]
      | none => [])

/-- The remote collaborator for the autoscaling client, as seen through the
calls the module issues for one identity key.  Modelled from the spec's
section 6 remote API (`describe`, `upsert`, `delete`): `actions` is the list
of scheduled actions currently matching the identity; `putEffect` is the
action list an (idempotent-upsert) put leaves behind when it succeeds;
`putResp` and `deleteResp` are the opaque API responses; the `...Err` fields
inject a `ClientError` into the corresponding call. -/
structure Remote where
  actions : List Action
  putEffect : List Action
  putResp : String
  deleteResp : String
  describeErr : Option ClientError
  deleteErr : Option ClientError
  putErr : Option ClientError
deriving DecidableEq

/-- An unhandled Python exception raised by the module code itself. -/
inductive PyError where
  | nameError
  | typeError
  | indexError
deriving DecidableEq

/-- The value a module run hands back through `exit_json(results=...)`:
either the action list from a describe snapshot, or a delete/put API
response. -/
inductive ModuleResult where
  | actionList (as : List Action)
  | deleteResp (s : String)
  | putResp (s : String)
deriving DecidableEq

/-- The observable outcome of one module run: a normal exit carrying the
changed flag and results, a structured `fail_json` error with its message,
or an unhandled Python exception escaping the module code. -/
inductive Outcome where
  | ok (changed : Bool) (result : ModuleResult)
  | failJson (msg : String)
  | crash (e : PyError)
deriving DecidableEq

/-- One API call issued to the autoscaling client, with its request dict. -/
inductive ApiCall where
  | describeCall (ps : List (String × PValue))
  | deleteCall (ps : List (String × PValue))
  | putCall (ps : List (String × PValue))
deriving DecidableEq

/-- `describe_scheduled_actions` (source lines 145-154): the call's result
dict.  On success the dict holds the `ScheduledUpdateGroupActions` key with
the matching actions; every `ClientError` is swallowed (`except ClientError:
pass`), leaving the initial empty dict, i.e. a dict missing the key —
modelled as `none`. -/
def describe_scheduled_actions (r : Remote) : Option (List Action) :=
  match r.describeErr with
  | some _ => none
  | none => some r.actions

/-- `delete_scheduled_action` (source lines 121-142).  When the describe
result lacks the `ScheduledUpdateGroupActions` key the function executes
`return changed, actions` with the local `actions` not yet assigned: an
unhandled `NameError`.  With an empty action list it returns
`(False, [])` without calling delete; otherwise it issues the delete,
fail_jsons on `ClientError`, and returns `(True, delete response)`. -/
def delete_scheduled_action (p : ModuleParams) (r : Remote) :
    Outcome × Remote × List ApiCall :=
  let tr := [ApiCall.describeCall (describe_params p)]
  match describe_scheduled_actions r with
  | none => (Outcome.crash PyError.nameError, r, tr)
  | some actions =>
    if actions.length = 0 then
      (Outcome.ok false (ModuleResult.actionList actions), r, tr)
    else
      match r.deleteErr with
      | some e =>
        (Outcome.failJson (errStr e), r, tr ++ [ApiCall.deleteCall (get_common_params p)])
      | none =>
        (Outcome.ok true (ModuleResult.deleteResp r.deleteResp),
         { r with actions := [] },
         tr ++ [ApiCall.deleteCall (get_common_params p)])

/-- `put_scheduled_update_group_action` (source lines 157-194).  Builds the
put request, takes a describe snapshot, issues the put unconditionally
(fail_json on `ClientError`), then: if the snapshot dict lacked the key,
`len(None)` raises `TypeError`; if the snapshot list was empty, changed is
true; otherwise it re-fetches and compares pre- and post-snapshot heads with
full-record inequality (`actions[0] != updated`).  A missing key on the
re-fetch makes `None[0]` a `TypeError`; an empty re-fetched list makes
`[0]` an `IndexError`. -/
def put_scheduled_update_group_action (p : ModuleParams) (r : Remote) :
    Outcome × Remote × List ApiCall :=
  let ps := put_params p
  let snapshot := describe_scheduled_actions r
  let tr := [ApiCall.describeCall (describe_params p)]
  match r.putErr with
  | some e => (Outcome.failJson (errStr e), r, tr ++ [ApiCall.putCall ps])
  | none =>
    let r' := { r with actions := r.putEffect }
    let tr := tr ++ [ApiCall.putCall ps]
    match snapshot with
    | none => (Outcome.crash PyError.typeError, r', tr)
    | some actions =>
      if actions.length = 0 then
        (Outcome.ok true (ModuleResult.putResp r.putResp), r', tr)
      else
        let tr := tr ++ [ApiCall.describeCall (describe_params p)]
        match describe_scheduled_actions r' with
        | none => (Outcome.crash PyError.typeError, r', tr)
        | some upd =>
          match upd with
          | [] => (Outcome.crash PyError.indexError, r', tr)
          | u :: _ =>
            match actions with
            | [] => (Outcome.crash PyError.indexError, r', tr)
            | a :: _ =>
              (Outcome.ok (decide (a ≠ u)) (ModuleResult.putResp r.putResp), r', tr)

/-- The module's `state` parameter. -/
inductive Mode where
  | present
  | absent
deriving DecidableEq

/-- `main` dispatch (source lines 220-227): state `present` runs the put
path, anything else the delete path. -/
def reconcile (p : ModuleParams) (mode : Mode) (r : Remote) :
    Outcome × Remote × List ApiCall :=
  match mode with
  | Mode.present => put_scheduled_update_group_action p r
  | Mode.absent => delete_scheduled_action p r

end AnsibleAws

namespace IamFacts

open AnsibleAws (ClientError)

/-- An IAM user record as returned by the IAM API. -/
structure IamUser where
  userName : String
  path : String
  arn : String
deriving DecidableEq

/-- The `iam_user_facts` module parameters after defaulting: `name` and
`group` default to `None`, `path` defaults to the string `/`. -/
structure IamParams where
  name : Option String
  group : Option String
  path : String
deriving DecidableEq

/-- Python truthiness of an optional string parameter: `None` and the empty
string are falsy. -/
def truthy : Option String → Bool
  | none => false
  | some s => !(s == "")

/-- The IAM remote collaborator, modelled from the spec's section 6 remote
API (`getByName`, `listByGroup`, `listByPathPrefix`): `users` is the full
remote user set, `groups` maps group names to their member users, and the
`...Err` fields inject a `ClientError` into the corresponding call. -/
structure IamRemote where
  users : List IamUser
  groups : List (String × List IamUser)
  getUserErr : Option ClientError
  getGroupErr : Option ClientError
  listUsersErr : Option ClientError
deriving DecidableEq

/-- The `NoSuchEntity` `ClientError` IAM raises for a missing user or
group. -/
def noSuchEntity : ClientError :=
  { code := "NoSuchEntity", msg := "The request resource was not found." }

/-- `connection.get_user(UserName=n)`: the user with that name, or a
`NoSuchEntity` `ClientError`; an injected fault takes priority. -/
def getUserCall (r : IamRemote) (n : String) : Except ClientError IamUser :=
  match r.getUserErr with
  | some e => Except.error e
  | none =>
    match r.users.find? (fun u => u.userName == n) with
    | some u => Except.ok u
    | none => Except.error noSuchEntity

/-- `connection.get_group(GroupName=g)`: the group's member users, or a
`NoSuchEntity` `ClientError` when the group does not exist. -/
def getGroupCall (r : IamRemote) (g : String) : Except ClientError (List IamUser) :=
  match r.getGroupErr with
  | some e => Except.error e
  | none =>
    match r.groups.find? (fun gr => gr.1 == g) with
    | some gr => Except.ok gr.2
    | none => Except.error noSuchEntity

/-- Python `str.startswith`, on the character lists of the strings. -/
def strStartsWith (s q : String) : Bool :=
  q.data.isPrefixOf s.data

/-- `connection.list_users(PathPrefix=q)`: every user whose path starts
with `q` (the single fixed page of up to 1000 items is modelled as
returning all matches, per the spec's stated non-goal of pagination). -/
def listUsersCall (r : IamRemote) (q : String) : Except ClientError (List IamUser) :=
  match r.listUsersErr with
  | some e => Except.error e
  | none => Except.ok (r.users.filter (fun u => strStartsWith u.path q))

/-- One API call issued to the IAM client. -/
inductive IamCall where
  | getUser (n : String)
  | getGroup (g : String)
  | listUsers (q : String)
deriving DecidableEq

/-- The observable outcome of one `iam_user_facts` run: `exit_json` with
the user list, `fail_json` with a message, or rejection of the argument
combination before any remote call. -/
inductive IamOutcome where
  | exitJson (users : List IamUser)
  | failJson (msg : String)
  | validationError
deriving DecidableEq

/-- The group and path branches of `list_iam_users` (source lines 132-152),
run after the name-only branch with `users0` as the accumulated list and
`tr` the calls issued so far: `if group:` fetches the group members
(fail_json on error, message prefixed as in the source) and narrows by name
when a name is supplied; `if path and not group:` lists by path prefix
likewise; otherwise `exit_json` reports the accumulated list. -/
def groupAndPathBranches (p : IamParams) (r : IamRemote)
    (users0 : List IamUser) (tr : List IamCall) : IamOutcome × List IamCall :=
  match p.group with
  | some g =>
    if g == "" then
      if p.path == "" then (IamOutcome.exitJson users0, tr)
      else
        match listUsersCall r p.path with
        | Except.error e =>
          (IamOutcome.failJson ("Failed while listing IAM users " ++ e.msg ++ " "),
           tr ++ [IamCall.listUsers p.path])
        | Except.ok us =>
          let us := if truthy p.name then us.filter (fun u => some u.userName == p.name) else us
          (IamOutcome.exitJson us, tr ++ [IamCall.listUsers p.path])
    else
      match getGroupCall r g with
      | Except.error e =>
        (IamOutcome.failJson ("Failed while listing IAM groups " ++ e.msg ++ " "),
         tr ++ [IamCall.getGroup g])
      | Except.ok us =>
        let us := if truthy p.name then us.filter (fun u => some u.userName == p.name) else us
        (IamOutcome.exitJson us, tr ++ [IamCall.getGroup g])
  | none =>
    if p.path == "" then (IamOutcome.exitJson users0, tr)
    else
      match listUsersCall r p.path with
      | Except.error e =>
        (IamOutcome.failJson ("Failed while listing IAM users " ++ e.msg ++ " "),
         tr ++ [IamCall.listUsers p.path])
      | Except.ok us =>
        let us := if truthy p.name then us.filter (fun u => some u.userName == p.name) else us
        (IamOutcome.exitJson us, tr ++ [IamCall.listUsers p.path])

/-- `list_iam_users` (source lines 116-152).  `if name and not path:`
fetches the single user by name (fail_json with the error's message on
failure, including the not-found case); then the group and path branches
run; finally `exit_json` reports the collected users. -/
def list_iam_users (p : IamParams) (r : IamRemote) : IamOutcome × List IamCall :=
  if truthy p.name && p.path == "" then
    let n := p.name.getD ""
    match getUserCall r n with
    | Except.error e => (IamOutcome.failJson e.msg, [IamCall.getUser n])
    | Except.ok u => groupAndPathBranches p r [u] [IamCall.getUser n]
  else
    groupAndPathBranches p r [] []

/-- The raw caller-supplied arguments, before defaulting: `none` means the
option was not supplied in the playbook. -/
structure IamArgs where
  name : Option String
  group : Option String
  path : Option String
deriving DecidableEq

/-- Modelled from the spec: the `AnsibleModule` construction with
`mutually_exclusive=[[group, path]]` (source lines 165-171) lives in
Ansible's module_utils, which is not part of this repository; per the spec,
a mutually-exclusive parameter combination (group filter and path filter
supplied together) is rejected before any remote call is made.  Otherwise
the `path` default `/` is applied and `list_iam_users` runs. -/
def iam_main (a : IamArgs) (r : IamRemote) : IamOutcome × List IamCall :=
  if a.group.isSome && a.path.isSome then
    (IamOutcome.validationError, [])
  else
    list_iam_users { name := a.name, group := a.group, path := a.path.getD "/" } r

end IamFacts

open AnsibleAws IamFacts

/-! Concrete fixtures used by witnesses and counterexamples. -/

/-- The DesiredState from the module's EXAMPLES block (times omitted). -/
def pEx : ModuleParams :=
  { autoscaling_group_name := "test_asg"
    scheduled_action_name := "mtest_asg_schedule"
    recurrence := "40 22 * * 1-5"
    desired_capacity := 0
    min_size := some 0
    max_size := some 0
    start_time := none
    end_time := none }

/-- A remote scheduled action matching `pEx`. -/
def aEx : Action :=
  { autoScalingGroupName := "test_asg"
    scheduledActionName := "mtest_asg_schedule"
    recurrence := "40 22 * * 1-5"
    desiredCapacity := 0
    minSize := some 0
    maxSize := some 0
    startTime := none
    endTime := none }

/-- A healthy remote on which the action exists and an upsert leaves it
unchanged. -/
def rHealthy : Remote :=
  { actions := [aEx]
    putEffect := [aEx]
    putResp := "put-ok"
    deleteResp := "del-ok"
    describeErr := none
    deleteErr := none
    putErr := none }

/-- A healthy remote on which no action with the identity exists. -/
def rEmpty : Remote :=
  { rHealthy with actions := [] }

/-- A non-not-found `ClientError`. -/
def accessDenied : ClientError :=
  { code := "AccessDenied", msg := "User is not authorized to perform this operation" }

/-- A second distinct `ClientError`, used for the mutation call. -/
def throttling : ClientError :=
  { code := "Throttling", msg := "Rate exceeded" }

/-- A remote whose describe call raises a (swallowed) `ClientError`. -/
def rDescribeFails : Remote :=
  { rHealthy with describeErr := some accessDenied }

/-- A remote whose delete call raises a `ClientError`. -/
def rDeleteFails : Remote :=
  { rHealthy with deleteErr := some throttling }

/-- A remote whose put call raises a `ClientError`. -/
def rPutFails : Remote :=
  { rHealthy with putErr := some throttling }

/-- A remote where both the describe and the put call raise. -/
def rDescribeAndPutFail : Remote :=
  { rHealthy with describeErr := some accessDenied, putErr := some throttling }

/-- C1: with mode=present, when the describe snapshot holds an existing
action `a` and the re-fetched post-upsert head is `a2`, a successful run
returns the put response with changed equal to the full-record inequality
`a ≠ a2` — so a post-upsert resource field-identical to the pre-upsert
snapshot yields changed=false, and any differing field (the comparison is
the derived equality over every field of `Action`, not a subset) yields
changed=true. -/
theorem c1_present_identical_unchanged (p : ModuleParams) (r : Remote)
    (a a2 : Action) (as as2 : List Action)
    (h1 : r.describeErr = none) (h2 : r.putErr = none)
    (h3 : r.actions = a :: as) (h4 : r.putEffect = a2 :: as2) :
    (reconcile p Mode.present r).1 =
      Outcome.ok (decide (a ≠ a2)) (ModuleResult.putResp r.putResp) := by
  simp [reconcile, put_scheduled_update_group_action, describe_scheduled_actions,
        h1, h2, h3, h4]

/-- Witness for C1 at a concrete input: the action exists and the upsert
leaves it field-identical, so the run reports changed=false. -/
theorem c1_witness :
    rHealthy.describeErr = none ∧ rHealthy.putErr = none ∧
    rHealthy.actions = aEx :: [] ∧ rHealthy.putEffect = aEx :: [] ∧
    (reconcile pEx Mode.present rHealthy).1 =
      Outcome.ok false (ModuleResult.putResp "put-ok") := by
  refine ⟨rfl, rfl, rfl, rfl, ?_⟩
  have h := c1_present_identical_unchanged pEx rHealthy aEx aEx [] [] rfl rfl rfl rfl
  simpa using h

/-- C2: with mode=present, when the describe snapshot is the empty action
list and the put succeeds, the run returns changed=true with the put call's
response, and the issued calls are exactly the describe followed by the put
carrying the full request built from the DesiredState. -/
theorem c2_present_create (p : ModuleParams) (r : Remote)
    (h1 : r.describeErr = none) (h2 : r.actions = []) (h3 : r.putErr = none) :
    (reconcile p Mode.present r).1 =
      Outcome.ok true (ModuleResult.putResp r.putResp) ∧
    (reconcile p Mode.present r).2.2 =
      [ApiCall.describeCall (describe_params p), ApiCall.putCall (put_params p)] := by
  constructor <;>
    simp [reconcile, put_scheduled_update_group_action, describe_scheduled_actions,
          h1, h2, h3]

/-- Witness for C2 at a concrete input. -/
theorem c2_witness :
    rEmpty.describeErr = none ∧ rEmpty.actions = [] ∧ rEmpty.putErr = none ∧
    ((reconcile pEx Mode.present rEmpty).1 =
       Outcome.ok true (ModuleResult.putResp rEmpty.putResp) ∧
     (reconcile pEx Mode.present rEmpty).2.2 =
       [ApiCall.describeCall (describe_params pEx), ApiCall.putCall (put_params pEx)]) :=
  ⟨rfl, rfl, rfl, c2_present_create pEx rEmpty rfl rfl rfl⟩

/-- C3: with mode=absent, when the describe call succeeds with an empty
action list, the run returns changed=false, the remote state is untouched,
and the only call issued is the describe — no delete mutation. -/
theorem c3_absent_noop (p : ModuleParams) (r : Remote)
    (h1 : r.describeErr = none) (h2 : r.actions = []) :
    (reconcile p Mode.absent r).1 = Outcome.ok false (ModuleResult.actionList []) ∧
    (reconcile p Mode.absent r).2.1 = r ∧
    (reconcile p Mode.absent r).2.2 = [ApiCall.describeCall (describe_params p)] := by
  refine ⟨?_, ?_, ?_⟩ <;>
    simp [reconcile, delete_scheduled_action, describe_scheduled_actions, h1, h2]

/-- Witness for C3 at a concrete input. -/
theorem c3_witness :
    rEmpty.describeErr = none ∧ rEmpty.actions = [] ∧
    ((reconcile pEx Mode.absent rEmpty).1 =
       Outcome.ok false (ModuleResult.actionList []) ∧
     (reconcile pEx Mode.absent rEmpty).2.1 = rEmpty ∧
     (reconcile pEx Mode.absent rEmpty).2.2 =
       [ApiCall.describeCall (describe_params pEx)]) :=
  ⟨rfl, rfl, c3_absent_noop pEx rEmpty rfl rfl⟩

/-- C4: mode=absent is idempotent.  On a healthy remote where the action
exists, the first run deletes it and reports changed=true; rerunning on the
remote state the first run left behind (no external mutation in between)
reports changed=false. -/
theorem c4_absent_idempotent (p : ModuleParams) (r : Remote)
    (h1 : r.describeErr = none) (h2 : r.deleteErr = none) (h3 : r.actions ≠ []) :
    (reconcile p Mode.absent r).1 =
      Outcome.ok true (ModuleResult.deleteResp r.deleteResp) ∧
    (reconcile p Mode.absent (reconcile p Mode.absent r).2.1).1 =
      Outcome.ok false (ModuleResult.actionList []) := by
  have hlen : r.actions.length ≠ 0 := by
    intro h
    exact h3 (List.length_eq_zero.mp h)
  constructor <;>
    simp [reconcile, delete_scheduled_action, describe_scheduled_actions,
          h1, h2, hlen]

/-- Witness for C4 at a concrete input. -/
theorem c4_witness :
    rHealthy.describeErr = none ∧ rHealthy.deleteErr = none ∧ rHealthy.actions ≠ [] ∧
    ((reconcile pEx Mode.absent rHealthy).1 =
       Outcome.ok true (ModuleResult.deleteResp rHealthy.deleteResp) ∧
     (reconcile pEx Mode.absent (reconcile pEx Mode.absent rHealthy).2.1).1 =
       Outcome.ok false (ModuleResult.actionList [])) :=
  ⟨rfl, rfl, by decide, c4_absent_idempotent pEx rHealthy rfl rfl (by decide)⟩

/-- Counterexample to C5 as stated: with a non-not-found `ClientError`
(`AccessDenied`) raised by the describe call, the absent-mode invocation
does not surface the error — `except ClientError: pass` swallows it and the
run then crashes with an unhandled `NameError` instead of producing the
structured error result. -/
theorem c5_counterexample :
    (reconcile pEx Mode.absent rDescribeFails).1 = Outcome.crash PyError.nameError ∧
    (reconcile pEx Mode.absent rDescribeFails).1 ≠ Outcome.failJson (errStr accessDenied) := by
  decide

/-- C5 amended: delete and put mutation failures are fatal and surfaced
verbatim via fail_json with the error's code/message; the describe call,
however, swallows every `ClientError` — not only not-found — so an
invocation whose describe raises any `ClientError` never surfaces it and
instead crashes with `NameError` (absent path) or, when the put itself
succeeds, `TypeError` (present path). -/
theorem c5_amended_error_surfacing (p : ModuleParams) (r : Remote) (e : ClientError) :
    (r.describeErr = some e →
       (reconcile p Mode.absent r).1 = Outcome.crash PyError.nameError) ∧
    (r.describeErr = some e → r.putErr = none →
       (reconcile p Mode.present r).1 = Outcome.crash PyError.typeError) ∧
    (r.describeErr = none → r.actions ≠ [] → r.deleteErr = some e →
       (reconcile p Mode.absent r).1 = Outcome.failJson (errStr e)) ∧
    (r.putErr = some e →
       (reconcile p Mode.present r).1 = Outcome.failJson (errStr e)) := by
  refine ⟨?_, ?_, ?_, ?_⟩
  · intro h1
    simp [reconcile, delete_scheduled_action, describe_scheduled_actions, h1]
  · intro h1 h2
    simp [reconcile, put_scheduled_update_group_action, describe_scheduled_actions, h1, h2]
  · intro h1 h2 h3
    have hlen : r.actions.length ≠ 0 := by
      intro h
      exact h2 (List.length_eq_zero.mp h)
    simp [reconcile, delete_scheduled_action, describe_scheduled_actions, h1, h3, hlen]
  · intro h1
    simp [reconcile, put_scheduled_update_group_action, describe_scheduled_actions, h1]

/-- Witness for the amended C5 at concrete inputs: a swallowed describe
error crashes both paths; a delete or put error is surfaced verbatim. -/
theorem c5_amended_witness :
    ((reconcile pEx Mode.absent rDescribeFails).1 = Outcome.crash PyError.nameError ∧
     (reconcile pEx Mode.present rDescribeFails).1 = Outcome.crash PyError.typeError) ∧
    (reconcile pEx Mode.absent rDeleteFails).1 = Outcome.failJson (errStr throttling) ∧
    (reconcile pEx Mode.present rPutFails).1 = Outcome.failJson (errStr throttling) :=
  ⟨⟨(c5_amended_error_surfacing pEx rDescribeFails accessDenied).1 rfl,
    (c5_amended_error_surfacing pEx rDescribeFails accessDenied).2.1 rfl rfl⟩,
   (c5_amended_error_surfacing pEx rDeleteFails throttling).2.2.1 rfl (by decide) rfl,
   (c5_amended_error_surfacing pEx rPutFails throttling).2.2.2 rfl⟩

/-- Counterexample to C10 as stated: an invocation of reconcile with
mode=present whose initial describe response lacks the
`ScheduledUpdateGroupActions` key but whose put call raises a `ClientError`
returns the structured `fail_json` error from the put — it never reaches
`len(None)`, so no unhandled Python error is raised at this input. -/
theorem c10_counterexample :
    (reconcile pEx Mode.present rDescribeAndPutFail).1 = Outcome.failJson (errStr throttling) ∧
    (reconcile pEx Mode.present rDescribeAndPutFail).1 ≠ Outcome.crash PyError.typeError ∧
    (reconcile pEx Mode.present rDescribeAndPutFail).1 ≠ Outcome.crash PyError.nameError := by
  decide

/-- C10 amended: when the initial describe response lacks the
`ScheduledUpdateGroupActions` key (the swallowed-ClientError path), the
absent path always raises an unhandled `NameError` (the local `actions`
referenced before assignment), and the present path raises an unhandled
`TypeError` (`len(None)`) provided the put call itself does not raise a
`ClientError`; a failing put is surfaced as a structured fail_json error
before the `TypeError` would occur. -/
theorem c10_amended_missing_key_crashes (p : ModuleParams) (r : Remote)
    (e : ClientError) (h : r.describeErr = some e) :
    (reconcile p Mode.absent r).1 = Outcome.crash PyError.nameError ∧
    (r.putErr = none →
       (reconcile p Mode.present r).1 = Outcome.crash PyError.typeError) ∧
    (∀ e2, r.putErr = some e2 →
       (reconcile p Mode.present r).1 = Outcome.failJson (errStr e2)) := by
  refine ⟨?_, ?_, ?_⟩
  · simp [reconcile, delete_scheduled_action, describe_scheduled_actions, h]
  · intro h2
    simp [reconcile, put_scheduled_update_group_action, describe_scheduled_actions, h, h2]
  · intro e2 h2
    simp [reconcile, put_scheduled_update_group_action, describe_scheduled_actions, h, h2]

/-- Witness for the amended C10 at concrete inputs. -/
theorem c10_amended_witness :
    rDescribeFails.describeErr = some accessDenied ∧
    ((reconcile pEx Mode.absent rDescribeFails).1 = Outcome.crash PyError.nameError ∧
     (reconcile pEx Mode.present rDescribeFails).1 = Outcome.crash PyError.typeError ∧
     (reconcile pEx Mode.present rDescribeAndPutFail).1 = Outcome.failJson (errStr throttling)) :=
  ⟨rfl,
   (c10_amended_missing_key_crashes pEx rDescribeFails accessDenied rfl).1,
   (c10_amended_missing_key_crashes pEx rDescribeFails accessDenied rfl).2.1 rfl,
   (c10_amended_missing_key_crashes pEx rDescribeAndPutFail accessDenied rfl).2.2 throttling rfl⟩

/-- C8: in the upsert request built by `put_scheduled_update_group_action`,
the required `Recurrence` and `DesiredCapacity` fields are always present;
each optional field (`MinSize`, `MaxSize`, `StartTime`, `EndTime`) is
omitted from the request entirely when the corresponding module parameter
is absent, and included with its value when present. -/
theorem c8_optional_fields_omitted (p : ModuleParams) :
    ("Recurrence" ∈ (put_params p).map Prod.fst) ∧
    ("DesiredCapacity" ∈ (put_params p).map Prod.fst) ∧
    (p.min_size = none → "MinSize" ∉ (put_params p).map Prod.fst) ∧
    (∀ v, p.min_size = some v → ("MinSize", PValue.int v) ∈ put_params p) ∧
    (p.max_size = none → "MaxSize" ∉ (put_params p).map Prod.fst) ∧
    (∀ v, p.max_size = some v → ("MaxSize", PValue.int v) ∈ put_params p) ∧
    (p.start_time = none → "StartTime" ∉ (put_params p).map Prod.fst) ∧
    (∀ v, p.start_time = some v → ("StartTime", PValue.str v) ∈ put_params p) ∧
    (p.end_time = none → "EndTime" ∉ (put_params p).map Prod.fst) ∧
    (∀ v, p.end_time = some v → ("EndTime", PValue.str v) ∈ put_params p) := by
  obtain ⟨ag, sa, rec, dc, ms, mx, st, et⟩ := p
  cases ms <;> cases mx <;> cases st <;> cases et <;>
    simp [put_params, get_common_params]

/-- Witness for C8 at a concrete input: `pEx` supplies min/max sizes but no
start/end times, so the request carries `MinSize` and omits `StartTime`. -/
theorem c8_witness :
    ("Recurrence" ∈ (put_params pEx).map Prod.fst) ∧
    (("MinSize", PValue.int 0) ∈ put_params pEx) ∧
    ("StartTime" ∉ (put_params pEx).map Prod.fst) :=
  ⟨(c8_optional_fields_omitted pEx).1,
   (c8_optional_fields_omitted pEx).2.2.2.1 0 rfl,
   (c8_optional_fields_omitted pEx).2.2.2.2.2.2.1 rfl⟩

/-! IAM fixtures. -/

/-- The user from the module's EXAMPLES block. -/
def uTest : IamUser :=
  { userName := "test", path := "/dev/", arn := "arn:aws:iam::156360693172:user/dev/test" }

/-- A second user sharing the `dev` group and path. -/
def uAlice : IamUser :=
  { userName := "alice", path := "/dev/", arn := "arn:aws:iam::156360693172:user/dev/alice" }

/-- A third user on a different path. -/
def uBob : IamUser :=
  { userName := "bob", path := "/ops/", arn := "arn:aws:iam::156360693172:user/ops/bob" }

/-- A healthy IAM remote with three users and one two-member group. -/
def rIam : IamRemote :=
  { users := [uTest, uAlice, uBob]
    groups := [("dev", [uTest, uAlice])]
    getUserErr := none
    getGroupErr := none
    listUsersErr := none }

/-- `BEq` on `Option String` unfolds on two `some`s to `BEq` on the
contents. -/
theorem some_beq_some (a b : String) : (some a == some b) = (a == b) := rfl

/-- Filtering a list by one value of a key under which it has no duplicates
yields at most one element. -/
theorem filter_key_length_le_one {α : Type} (f : α → String) (n : String) :
    ∀ l : List α, (l.map f).Nodup → (l.filter (fun u => f u == n)).length ≤ 1 := by
  intro l
  induction l with
  | nil =>
    intro _
    simp
  | cons a t ih =>
    intro h
    rw [List.map_cons, List.nodup_cons] at h
    by_cases hfa : f a = n
    · have ht : t.filter (fun u => f u == n) = [] := by
        apply List.filter_eq_nil_iff.mpr
        intro x hx hxn
        have hfx : f x = n := by simpa using hxn
        exact h.1 (by
          rw [hfa, ← hfx]
          exact List.mem_map_of_mem f hx)
      have hfa2 : (f a == n) = true := by simpa using hfa
      simp [List.filter_cons, hfa2, ht]
    · have hfa2 : (f a == n) = false := by simpa using hfa
      simp [List.filter_cons, hfa2]
      exact ih h.2

/-- C6: when the caller supplies both the group filter and the path filter,
the invocation is rejected as a validation error before any remote call:
the issued-call trace is empty. -/
theorem c6_mutually_exclusive (a : IamArgs) (r : IamRemote) (g q : String)
    (h1 : a.group = some g) (h2 : a.path = some q) :
    (iam_main a r).1 = IamOutcome.validationError ∧ (iam_main a r).2 = [] := by
  constructor <;> simp [iam_main, h1, h2]

/-- Witness for C6 at a concrete input. -/
theorem c6_witness :
    (IamArgs.mk none (some "dev") (some "/dev/")).group = some "dev" ∧
    (IamArgs.mk none (some "dev") (some "/dev/")).path = some "/dev/" ∧
    ((iam_main (IamArgs.mk none (some "dev") (some "/dev/")) rIam).1 =
       IamOutcome.validationError ∧
     (iam_main (IamArgs.mk none (some "dev") (some "/dev/")) rIam).2 = []) :=
  ⟨rfl, rfl, c6_mutually_exclusive (IamArgs.mk none (some "dev") (some "/dev/")) rIam
    "dev" "/dev/" rfl rfl⟩

/-- C7: with a non-empty name filter, no group, and the defaulted path `/`,
when the list call succeeds, every remote user's path starts with `/`, and
remote user names are unique, the run exits normally with exactly the users
whose `UserName` equals the name — a list of at most one element, and the
empty list (not an error) when no user matches. -/
theorem c7_name_filter_returns_match_or_empty (pm : IamParams) (r : IamRemote)
    (n : String) (hn : pm.name = some n) (hne : n ≠ "")
    (hg : pm.group = none) (hp : pm.path = "/")
    (herr : r.listUsersErr = none)
    (hslash : ∀ u ∈ r.users, strStartsWith u.path "/")
    (huniq : (r.users.map (fun u => u.userName)).Nodup) :
    (list_iam_users pm r).1 =
      IamOutcome.exitJson (r.users.filter (fun u => u.userName == n)) ∧
    (r.users.filter (fun u => u.userName == n)).length ≤ 1 := by
  constructor
  · simp only [list_iam_users, groupAndPathBranches, listUsersCall, truthy,
        hn, hne, hg, hp, herr, some_beq_some]
    simp only [List.filter_filter]
    simp [some_beq_some]
    rw [if_neg hne]
    refine List.filter_congr ?_
    intro u hu
    simp [hslash u hu]
  · exact filter_key_length_le_one (fun u => u.userName) n r.users huniq

/-- Witness for C7 at concrete inputs: the name `test` matches exactly one
of the three users. -/
theorem c7_witness :
    (IamParams.mk (some "test") none "/").name = some "test" ∧
    rIam.listUsersErr = none ∧
    ((list_iam_users (IamParams.mk (some "test") none "/") rIam).1 =
       IamOutcome.exitJson (rIam.users.filter (fun u => u.userName == "test")) ∧
     (rIam.users.filter (fun u => u.userName == "test")).length ≤ 1) :=
  ⟨rfl, rfl,
   c7_name_filter_returns_match_or_empty (IamParams.mk (some "test") none "/") rIam
     "test" rfl (by decide) rfl rfl rfl (by decide) (by decide)⟩

/-- C9: the read-only lookups report the full fetched set unmodified when
only a group or path filter is supplied — even when it holds several users,
with no pick-first — and narrow the fetched set to exact `UserName` matches
when a name filter accompanies the group or path filter. -/
theorem c9_full_set_or_name_narrowed (pm : IamParams) (r : IamRemote) :
    (∀ g L, pm.group = some g → g ≠ "" → pm.name = none → pm.path = "/" →
       getGroupCall r g = Except.ok L →
       (list_iam_users pm r).1 = IamOutcome.exitJson L) ∧
    (∀ g L n, pm.group = some g → g ≠ "" → pm.name = some n → n ≠ "" → pm.path = "/" →
       getGroupCall r g = Except.ok L →
       (list_iam_users pm r).1 =
         IamOutcome.exitJson (L.filter (fun u => u.userName == n))) ∧
    (∀ L, pm.group = none → pm.name = none → pm.path ≠ "" →
       listUsersCall r pm.path = Except.ok L →
       (list_iam_users pm r).1 = IamOutcome.exitJson L) ∧
    (∀ L n, pm.group = none → pm.name = some n → n ≠ "" → pm.path ≠ "" →
       listUsersCall r pm.path = Except.ok L →
       (list_iam_users pm r).1 =
         IamOutcome.exitJson (L.filter (fun u => u.userName == n))) := by
  refine ⟨?_, ?_, ?_, ?_⟩
  · intro g L hg hgne hn hp hcall
    have hg2 : (g == "") = false := by simpa using hgne
    simp [list_iam_users, groupAndPathBranches, truthy, hg, hg2, hn, hp, hcall]
  · intro g L n hg hgne hn hne hp hcall
    have hg2 : (g == "") = false := by simpa using hgne
    simp [list_iam_users, groupAndPathBranches, truthy, hg, hg2, hn, hne, hp, hcall,
          some_beq_some]
  · intro L hg hn hp hcall
    have hp2 : (pm.path == "") = false := by simpa using hp
    simp [list_iam_users, groupAndPathBranches, truthy, hg, hn, hp2, hcall]
  · intro L n hg hn hne hp hcall
    have hp2 : (pm.path == "") = false := by simpa using hp
    simp [list_iam_users, groupAndPathBranches, truthy, hg, hn, hne, hp2, hcall,
          some_beq_some]

/-- Witness for C9 at concrete inputs: the `dev` group holds two users and
both are reported; adding the name filter narrows to the one match; the
path lookup under `/dev/` likewise reports both users or the one match. -/
theorem c9_witness :
    ((list_iam_users (IamParams.mk none (some "dev") "/") rIam).1 =
       IamOutcome.exitJson [uTest, uAlice]) ∧
    ((list_iam_users (IamParams.mk (some "test") (some "dev") "/") rIam).1 =
       IamOutcome.exitJson ([uTest, uAlice].filter (fun u => u.userName == "test"))) ∧
    ((list_iam_users (IamParams.mk none none "/dev/") rIam).1 =
       IamOutcome.exitJson [uTest, uAlice]) ∧
    ((list_iam_users (IamParams.mk (some "test") none "/dev/") rIam).1 =
       IamOutcome.exitJson ([uTest, uAlice].filter (fun u => u.userName == "test"))) :=
  ⟨(c9_full_set_or_name_narrowed (IamParams.mk none (some "dev") "/") rIam).1
     "dev" [uTest, uAlice] rfl (by decide) rfl rfl rfl,
   (c9_full_set_or_name_narrowed (IamParams.mk (some "test") (some "dev") "/") rIam).2.1
     "dev" [uTest, uAlice] "test" rfl (by decide) rfl (by decide) rfl rfl,
   (c9_full_set_or_name_narrowed (IamParams.mk none none "/dev/") rIam).2.2.1
     [uTest, uAlice] rfl rfl (by decide) rfl,
   (c9_full_set_or_name_narrowed (IamParams.mk (some "test") none "/dev/") rIam).2.2.2
     [uTest, uAlice] "test" rfl rfl (by decide) (by decide) rfl⟩
